import Mathlib

/-!
Verification of the movie-ticket booking system (Django app `movies`).

The embedding models the data layer (`movies/models.py`), the seat-booking
endpoint (`BookSeatView.post` in `movies/views.py`), the cancellation
endpoint (`CancelBookingView.post` in `movies/views.py`) and the request
validation (`BookingCreateSerializer` in `movies/serializers.py`).

Transactions are serialized: each `book`/`cancel` call is one atomic
transition on the store state, mirroring `transaction.atomic()` plus the
row locking the spec requires of the store.  Timestamps are modelled by a
logical clock on the state that advances on every committed write, which
is what `auto_now_add` / `auto_now` provide up to the choice of time unit.
-/

set_option autoImplicit false

namespace Movies

/-- `Booking.STATUS_CHOICES` in `models.py`: `booked` or `cancelled`. -/
inductive BStatus where
  | booked
  | cancelled
deriving DecidableEq, Repr

/-- The `Booking` model (`models.py`): primary key, user FK, show FK,
`seat_number` (an integer field), `status`, `created_at` (`auto_now_add`)
and `updated_at` (`auto_now`). -/
structure Booking where
  id : Nat
  user_id : Nat
  show_id : Nat
  seat_number : Int
  status : BStatus
  created_at : Nat
  updated_at : Nat
deriving DecidableEq, Repr

/-- The `Show` model (`models.py`): primary key, movie FK, `screen_name`,
`date_time` (abstracted to a number) and `total_seats`. -/
structure MShow where
  id : Nat
  movie_id : Nat
  screen_name : String
  date_time : Nat
  total_seats : Int
deriving DecidableEq, Repr

/-- The persistent store: the `Show` and `Booking` relations, the next
auto-increment booking primary key, and the logical clock used for the
`created_at`/`updated_at` timestamps. -/
structure State where
  shows : List MShow
  bookings : List Booking
  nextId : Nat
  clock : Nat
deriving DecidableEq, Repr

/-- `Show.objects.get(id=show_id)` (`views.py`). -/
def findShow (s : State) (sid : Nat) : Option MShow :=
  s.shows.find? fun sh => sh.id == sid

/-- `Booking.objects.get(id=booking_id)` (`views.py`). -/
def findBooking (s : State) (bid : Nat) : Option Booking :=
  s.bookings.find? fun b => b.id == bid

/-- The row filter `show=show, seat_number=seat_number, status="booked"`
used by the seat-taken check in `views.py`. -/
def isActiveFor (sid : Nat) (seat : Int) (b : Booking) : Bool :=
  b.show_id == sid && b.seat_number == seat && b.status == BStatus.booked

/-- The row filter `show=show, status="booked"` used by the capacity
check in `views.py`. -/
def isBookedFor (sid : Nat) (b : Booking) : Bool :=
  b.show_id == sid && b.status == BStatus.booked

/-- `Booking.objects.filter(show=show, seat_number=seat_number,
status="booked").exists()` (`views.py`, the seat-taken check; the
`select_for_update()` is the lock and has no effect in the serialized
model). -/
def seatTaken (l : List Booking) (sid : Nat) (seat : Int) : Bool :=
  l.any (isActiveFor sid seat)

/-- `Booking.objects.filter(show=show, status="booked").count()`
(`views.py`, the capacity check). -/
def countBooked (l : List Booking) (sid : Nat) : Nat :=
  (l.filter (isBookedFor sid)).length

/-- The bookings with `status="booked"` for one `(show, seat_number)`
pair: the rows the core uniqueness invariant is about. -/
def activeForSeat (s : State) (sid : Nat) (seat : Int) : List Booking :=
  s.bookings.filter (isActiveFor sid seat)

/-- `BookingCreateSerializer` (`serializers.py`): `seat_number` is an
`IntegerField(min_value=1)`, and `validate_seat_number` rejects any value
with `value > show.total_seats`. -/
def serializerValid (seat : Int) (sh : MShow) : Bool :=
  1 ≤ seat && seat ≤ sh.total_seats

/-- Modelled from the spec: the Capacity Policy pure function
`validate_seat_number(n, show) = n ≥ 1 AND n ≤ show.total_seats`;
the source realises it inside `BookingCreateSerializer`. -/
def validate_seat_number (n : Int) (sh : MShow) : Bool :=
  1 ≤ n && n ≤ sh.total_seats

/-- Outcomes of `BookSeatView.post` (`views.py`): 201 with the booking,
404 show not found, 400 serializer error, 400 seat already booked,
400 show fully booked. -/
inductive BookResult where
  | ok (b : Booking)
  | showNotFound
  | validationError
  | seatAlreadyBooked
  | showFull
deriving DecidableEq, Repr

/-- Outcomes of `CancelBookingView.post` (`views.py`): 200 with the
booking, 404 booking not found, 403 not the owner, 400 already cancelled,
500 when `booking.save()` raises (the `except Exception` branch; in this
store that happens exactly when the `unique_together
= ["show", "seat_number", "status"]` constraint of `models.py` is
violated by the update). -/
inductive CancelResult where
  | ok (b : Booking)
  | notFound
  | forbidden
  | alreadyCancelled
  | dbError
deriving DecidableEq, Repr

/-- `BookSeatView.post` (`views.py`), one serialized transaction:
look up the show (404 if absent), run the serializer validation (400),
inside `transaction.atomic()` check the seat (400 already booked), check
the capacity (400 fully booked), then `Booking.objects.create(...)` with
`status="booked"`.  The insert cannot violate the
`(show, seat_number, status)` unique constraint because the seat-taken
check that just ran is exactly the constraint's predicate for
`status="booked"` rows. -/
def book (s : State) (sid uid : Nat) (seat : Int) : BookResult × State :=
  match findShow s sid with
  | none => (BookResult.showNotFound, s)
  | some sh =>
    if serializerValid seat sh = false then
      (BookResult.validationError, s)
    else if seatTaken s.bookings sid seat = true then
      (BookResult.seatAlreadyBooked, s)
    else if sh.total_seats ≤ (countBooked s.bookings sid : Int) then
      (BookResult.showFull, s)
    else
      let b : Booking :=
        { id := s.nextId, user_id := uid, show_id := sid, seat_number := seat,
          status := BStatus.booked, created_at := s.clock, updated_at := s.clock }
      (BookResult.ok b,
       { s with bookings := b :: s.bookings, nextId := s.nextId + 1,
                clock := s.clock + 1 })

/-- The `unique_together = ["show", "seat_number", "status"]` constraint
(`models.py`) applied to the update that sets `b`'s status to
`cancelled`: it is violated exactly when a different row already holds
`(b.show, b.seat_number, "cancelled")`. -/
def cancelConflict (l : List Booking) (b : Booking) : Bool :=
  l.any fun b2 => b2.id != b.id && b2.show_id == b.show_id &&
    b2.seat_number == b.seat_number && b2.status == BStatus.cancelled

/-- `CancelBookingView.post` (`views.py`): look up the booking (404 if
absent), check ownership (403), check the status (400 already cancelled),
then set `status = "cancelled"` and `booking.save()` — which refreshes
`updated_at` (`auto_now`) and raises `IntegrityError` (caught as a 500)
when the row update violates the unique constraint. -/
def cancel (s : State) (bid uid : Nat) : CancelResult × State :=
  match findBooking s bid with
  | none => (CancelResult.notFound, s)
  | some b =>
    if b.user_id ≠ uid then
      (CancelResult.forbidden, s)
    else if b.status = BStatus.cancelled then
      (CancelResult.alreadyCancelled, s)
    else if cancelConflict s.bookings b = true then
      (CancelResult.dbError, s)
    else
      let b2 : Booking := { b with status := BStatus.cancelled, updated_at := s.clock }
      (CancelResult.ok b2,
       { s with bookings := s.bookings.map fun x => if x.id == bid then b2 else x,
                clock := s.clock + 1 })

/-- A valid initial store: no bookings yet, distinct show primary keys,
and every show respecting `MinValueValidator(1)` on `total_seats`. -/
def InitOk (s : State) : Prop :=
  s.bookings = [] ∧ (s.shows.map MShow.id).Nodup ∧ ∀ sh ∈ s.shows, 1 ≤ sh.total_seats

/-- One serialized transaction: a `book` or a `cancel` call with any
arguments. -/
inductive Step : State → State → Prop where
  | book (s : State) (sid uid : Nat) (seat : Int) : Step s (book s sid uid seat).2
  | cancel (s : State) (bid uid : Nat) : Step s (cancel s bid uid).2

/-- States reachable from a valid initial store by any sequence of
`book`/`cancel` transactions. -/
inductive Reachable : State → Prop where
  | init (s : State) (h : InitOk s) : Reachable s
  | step (s t : State) (h : Reachable s) (hs : Step s t) : Reachable t

/-! ### Basic facts about the row filters and lookups -/

theorem isActiveFor_iff (sid : Nat) (seat : Int) (b : Booking) :
    isActiveFor sid seat b = true ↔
      b.show_id = sid ∧ b.seat_number = seat ∧ b.status = BStatus.booked := by
  simp [isActiveFor, and_assoc]

theorem isBookedFor_iff (sid : Nat) (b : Booking) :
    isBookedFor sid b = true ↔ b.show_id = sid ∧ b.status = BStatus.booked := by
  simp [isBookedFor]

theorem findShow_mem {s : State} {sid : Nat} {sh : MShow}
    (h : findShow s sid = some sh) : sh ∈ s.shows ∧ sh.id = sid := by
  refine ⟨List.mem_of_find?_eq_some h, ?_⟩
  have := List.find?_some h
  simpa using this

theorem findBooking_mem {s : State} {bid : Nat} {b : Booking}
    (h : findBooking s bid = some b) : b ∈ s.bookings ∧ b.id = bid := by
  refine ⟨List.mem_of_find?_eq_some h, ?_⟩
  have := List.find?_some h
  simpa using this

theorem seatTaken_false {l : List Booking} {sid : Nat} {seat : Int}
    (h : seatTaken l sid seat = false) :
    ∀ b ∈ l, ¬(b.show_id = sid ∧ b.seat_number = seat ∧ b.status = BStatus.booked) := by
  intro b hb
  rw [← isActiveFor_iff]
  intro hact
  have := (List.any_eq_true.mpr ⟨b, hb, hact⟩)
  rw [seatTaken] at h
  exact absurd this (by simp [h])

theorem countBooked_cons_hit {b : Booking} {l : List Booking} {sid : Nat}
    (h : isBookedFor sid b = true) :
    countBooked (b :: l) sid = countBooked l sid + 1 := by
  simp [countBooked, List.filter_cons, h]

theorem countBooked_cons_miss {b : Booking} {l : List Booking} {sid : Nat}
    (h : isBookedFor sid b = false) :
    countBooked (b :: l) sid = countBooked l sid := by
  simp [countBooked, List.filter_cons, h]

theorem length_filter_map_le {α : Type} (f : α → α) (p : α → Bool) (l : List α)
    (h : ∀ x ∈ l, p (f x) = true → p x = true) :
    ((l.map f).filter p).length ≤ (l.filter p).length := by
  induction l with
  | nil => simp
  | cons a t ih =>
    have ht : ∀ x ∈ t, p (f x) = true → p x = true := fun x hx => h x (by simp [hx])
    have iht := ih ht
    simp only [List.map_cons, List.filter_cons]
    by_cases hfa : p (f a) = true
    · have hpa : p a = true := h a (by simp) hfa
      simp only [hfa, hpa, if_true, List.length_cons]
      omega
    · rw [if_neg hfa]
      by_cases hpa : p a = true
      · simp only [hpa, if_true, List.length_cons]
        omega
      · rw [if_neg hpa]
        exact iht

/-! ### The store invariant -/

/-- The core uniqueness property: two rows with distinct primary keys are
never both `booked` for the same `(show, seat_number)`. -/
def SeatUnique (l : List Booking) : Prop :=
  ∀ b1 ∈ l, ∀ b2 ∈ l, b1.id ≠ b2.id → b1.show_id = b2.show_id →
    b1.seat_number = b2.seat_number → b1.status = BStatus.booked →
    b2.status = BStatus.booked → False

/-- The invariant maintained by every `book`/`cancel` transaction:
distinct show keys, positive capacities, distinct booking keys bounded by
the auto-increment counter, timestamps behind the clock, the seat
uniqueness property, and the per-show capacity bound. -/
def Inv (s : State) : Prop :=
  (s.shows.map MShow.id).Nodup ∧
  (∀ sh ∈ s.shows, 1 ≤ sh.total_seats) ∧
  (s.bookings.map Booking.id).Nodup ∧
  (∀ b ∈ s.bookings, b.id < s.nextId) ∧
  (∀ b ∈ s.bookings, b.created_at < s.clock ∧ b.updated_at < s.clock) ∧
  SeatUnique s.bookings ∧
  (∀ sh ∈ s.shows, (countBooked s.bookings sh.id : Int) ≤ sh.total_seats)

theorem inv_init {s : State} (h : InitOk s) : Inv s := by
  obtain ⟨hb, hn, hc⟩ := h
  refine ⟨hn, hc, ?_, ?_, ?_, ?_, ?_⟩
  · simp [hb]
  · simp [hb]
  · simp [hb]
  · simp [hb, SeatUnique]
  · intro sh hsh
    have := hc sh hsh
    simp only [hb, countBooked, List.filter_nil, List.length_nil, Nat.cast_zero]
    omega

theorem inv_book (s : State) (sid uid : Nat) (seat : Int) (h : Inv s) :
    Inv (book s sid uid seat).2 := by
  unfold book
  cases hf : findShow s sid with
  | none => exact h
  | some sh =>
    dsimp only
    split
    · exact h
    · split
      · exact h
      · rename_i hv ht
        split
        · exact h
        · rename_i hc
          obtain ⟨hshow, hcap, hids, hbound, hclk, huniq, hcount⟩ := h
          obtain ⟨hmem, hid⟩ := findShow_mem hf
          have ht' : seatTaken s.bookings sid seat = false := by
            simpa using ht
          have htf := seatTaken_false ht'
          refine ⟨hshow, hcap, ?_, ?_, ?_, ?_, ?_⟩
          · simp only [List.map_cons, List.nodup_cons]
            refine ⟨?_, hids⟩
            intro hmm
            obtain ⟨x, hx, hxid⟩ := List.mem_map.mp hmm
            have := hbound x hx
            have hxid' : x.id = s.nextId := hxid
            omega
          · intro x hx
            rcases List.mem_cons.mp hx with rfl | hx
            · simp
            · have := hbound x hx
              simp only
              omega
          · intro x hx
            rcases List.mem_cons.mp hx with rfl | hx
            · simp
            · have := hclk x hx
              simp only
              omega
          · intro b1 hb1 b2 hb2 hne hshoweq hseateq hs1 hs2
            rcases List.mem_cons.mp hb1 with rfl | hb1 <;>
              rcases List.mem_cons.mp hb2 with rfl | hb2
            · exact hne rfl
            · exact htf b2 hb2 ⟨by simpa using hshoweq.symm, by simpa using hseateq.symm, hs2⟩
            · exact htf b1 hb1 ⟨by simpa using hshoweq, by simpa using hseateq, hs1⟩
            · exact huniq b1 hb1 b2 hb2 hne hshoweq hseateq hs1 hs2
          · intro sh' hsh'
            simp only
            by_cases heq : sh'.id = sid
            · have hsheq : sh' = sh :=
                List.inj_on_of_nodup_map hshow hsh' hmem (by rw [heq, hid])
              subst hsheq
              rw [heq, countBooked_cons_hit (by simp [isBookedFor])]
              rw [← heq] at hc ⊢
              push_cast
              omega
            · rw [countBooked_cons_miss (by simp [isBookedFor, Ne.symm heq])]
              exact hcount sh' hsh'

theorem inv_cancel (s : State) (bid uid : Nat) (h : Inv s) :
    Inv (cancel s bid uid).2 := by
  unfold cancel
  cases hf : findBooking s bid with
  | none => exact h
  | some b =>
    dsimp only
    split
    · exact h
    · split
      · exact h
      · split
        · exact h
        · obtain ⟨hshow, hcap, hids, hbound, hclk, huniq, hcount⟩ := h
          obtain ⟨hbmem, hbid⟩ := findBooking_mem hf
          set b2 : Booking :=
            { b with status := BStatus.cancelled, updated_at := s.clock } with hb2def
          set f : Booking → Booking := fun x => if x.id == bid then b2 else x with hfdef
          have hfid : ∀ x : Booking, (f x).id = x.id := by
            intro x
            rw [hfdef]
            dsimp only
            split
            · rename_i hx
              have hx' : x.id = bid := by simpa using hx
              have hb2id : b2.id = b.id := rfl
              rw [hb2id, hbid, hx']
            · rfl
          have hcases : ∀ x ∈ s.bookings, f x = x ∨ (x = b ∧ f x = b2) := by
            intro x hx
            rw [hfdef]
            dsimp only
            by_cases hxid : x.id = bid
            · right
              have hxb : x = b :=
                List.inj_on_of_nodup_map hids hx hbmem (by rw [hxid, hbid])
              exact ⟨hxb, by simp [hxid]⟩
            · left
              simp [hxid]
          refine ⟨hshow, hcap, ?_, ?_, ?_, ?_, ?_⟩
          · have hmm : List.map Booking.id (List.map f s.bookings)
                = List.map Booking.id s.bookings := by
              rw [List.map_map]
              exact List.map_congr_left (fun x _ => hfid x)
            dsimp only
            rw [hmm]
            exact hids
          · intro y hy
            obtain ⟨x, hx, rfl⟩ := List.mem_map.mp hy
            rw [hfid x]
            exact hbound x hx
          · intro y hy
            obtain ⟨x, hx, rfl⟩ := List.mem_map.mp hy
            rcases hcases x hx with hfx | ⟨hxb, hfx⟩
            · rw [hfx]
              have := hclk x hx
              dsimp only
              omega
            · rw [hfx]
              have := hclk b hbmem
              have h1 : b2.created_at = b.created_at := rfl
              have h2 : b2.updated_at = s.clock := rfl
              dsimp only
              omega
          · intro y1 hy1 y2 hy2 hne hsh hseat hst1 hst2
            obtain ⟨x1, hx1, rfl⟩ := List.mem_map.mp hy1
            obtain ⟨x2, hx2, rfl⟩ := List.mem_map.mp hy2
            rcases hcases x1 hx1 with hfx1 | ⟨hxb1, hfx1⟩
            · rcases hcases x2 hx2 with hfx2 | ⟨hxb2, hfx2⟩
              · rw [hfx1] at hne hsh hseat hst1
                rw [hfx2] at hne hsh hseat hst2
                exact huniq x1 hx1 x2 hx2 hne hsh hseat hst1 hst2
              · rw [hfx2] at hst2
                have : b2.status = BStatus.cancelled := rfl
                rw [this] at hst2
                exact absurd hst2 (by simp)
            · rw [hfx1] at hst1
              have : b2.status = BStatus.cancelled := rfl
              rw [this] at hst1
              exact absurd hst1 (by simp)
          · intro sh' hsh'
            have hpt : ∀ x ∈ s.bookings,
                isBookedFor sh'.id (f x) = true → isBookedFor sh'.id x = true := by
              intro x hx hpfx
              rcases hcases x hx with hfx | ⟨hxb, hfx⟩
              · rwa [hfx] at hpfx
              · rw [hfx] at hpfx
                have : b2.status = BStatus.cancelled := rfl
                rw [isBookedFor_iff] at hpfx
                rw [this] at hpfx
                exact absurd hpfx.2 (by simp)
            have hle := length_filter_map_le f (isBookedFor sh'.id) s.bookings hpt
            have hle' : (countBooked (List.map f s.bookings) sh'.id : Int)
                ≤ (countBooked s.bookings sh'.id : Int) := by
              exact_mod_cast hle
            exact le_trans hle' (hcount sh' hsh')

theorem inv_reachable {s : State} (h : Reachable s) : Inv s := by
  induction h with
  | init s h => exact inv_init h
  | step s t _ hs ih =>
    cases hs with
    | book sid uid seat => exact inv_book s sid uid seat ih
    | cancel bid uid => exact inv_cancel s bid uid ih

theorem seatUnique_reachable {s : State} (h : Reachable s) : SeatUnique s.bookings :=
  (inv_reachable h).2.2.2.2.2.1

/-- The demonstration store: one show of capacity 1 on screen `S1`. -/
def sh1 : MShow :=
  { id := 1, movie_id := 1, screen_name := "S1", date_time := 0, total_seats := 1 }

def demo0 : State := { shows := [sh1], bookings := [], nextId := 1, clock := 0 }

/-- User 10 books seat 1 of the capacity-1 show. -/
def demo1 : State := (book demo0 1 10 1).2

/-- User 10 then cancels their booking (primary key 1). -/
def demo2 : State := (cancel demo1 1 10).2

/-- User 20 then books seat 1 again. -/
def demo3 : State := (book demo2 1 20 1).2

theorem demo0_init : InitOk demo0 := by
  refine ⟨rfl, ?_, ?_⟩ <;> decide

theorem demo0_reachable : Reachable demo0 := Reachable.init demo0 demo0_init

theorem demo1_reachable : Reachable demo1 :=
  Reachable.step demo0 demo1 demo0_reachable (Step.book demo0 1 10 1)

theorem demo2_reachable : Reachable demo2 :=
  Reachable.step demo1 demo2 demo1_reachable (Step.cancel demo1 1 10)

theorem demo3_reachable : Reachable demo3 :=
  Reachable.step demo2 demo3 demo2_reachable (Step.book demo2 1 20 1)

/-- C1: for every show and every seat number, at every point reachable by
any sequence of `book` and `cancel` operations, at most one `Booking` with
`status=booked` exists for that `(show, seat_number)` pair. -/
theorem c1_at_most_one_active_booking (s : State) (h : Reachable s)
    (sid : Nat) (seat : Int) : (activeForSeat s sid seat).length ≤ 1 := by
  obtain ⟨_, _, hids, _, _, huniq, _⟩ := inv_reachable h
  cases hl : activeForSeat s sid seat with
  | nil => simp
  | cons a t =>
    cases t with
    | nil => simp
    | cons bb t2 =>
      exfalso
      have hsub : List.Sublist (activeForSeat s sid seat) s.bookings :=
        List.filter_sublist s.bookings
      have hnds : (List.map Booking.id (activeForSeat s sid seat)).Nodup :=
        List.Nodup.sublist (List.Sublist.map Booking.id hsub) hids
      have ha : a ∈ activeForSeat s sid seat := by
        rw [hl]; exact List.mem_cons_self a (bb :: t2)
      have hb : bb ∈ activeForSeat s sid seat := by
        rw [hl]; exact List.mem_cons_of_mem a (List.mem_cons_self bb t2)
      obtain ⟨hamem, haf⟩ := List.mem_filter.mp ha
      obtain ⟨hbmem, hbf⟩ := List.mem_filter.mp hb
      rw [isActiveFor_iff] at haf hbf
      rw [hl] at hnds
      simp only [List.map_cons, List.nodup_cons] at hnds
      have hne : a.id ≠ bb.id := by
        intro he
        exact hnds.1 (by rw [he]; exact List.mem_cons_self bb.id (List.map Booking.id t2))
      exact huniq a hamem bb hbmem hne (by rw [haf.1, hbf.1])
        (by rw [haf.2.1, hbf.2.1]) haf.2.2 hbf.2.2

/-- Witness for C1 at a concrete reachable store. -/
theorem c1_at_most_one_active_booking_witness :
    (activeForSeat demo3 1 1).length ≤ 1 :=
  c1_at_most_one_active_booking demo3 demo3_reachable 1 1

/-! ### Branch behaviour of `book` -/

theorem book_validation_fails {s : State} {sid uid : Nat} {seat : Int} {sh : MShow}
    (hf : findShow s sid = some sh) (hv : serializerValid seat sh = false) :
    book s sid uid seat = (BookResult.validationError, s) := by
  unfold book
  rw [hf]
  simp [hv]

theorem book_seat_taken {s : State} {sid uid : Nat} {seat : Int} {sh : MShow}
    (hf : findShow s sid = some sh) (hv : serializerValid seat sh = true)
    (ht : seatTaken s.bookings sid seat = true) :
    book s sid uid seat = (BookResult.seatAlreadyBooked, s) := by
  unfold book
  rw [hf]
  simp [hv, ht]

theorem book_show_full {s : State} {sid uid : Nat} {seat : Int} {sh : MShow}
    (hf : findShow s sid = some sh) (hv : serializerValid seat sh = true)
    (ht : seatTaken s.bookings sid seat = false)
    (hfull : sh.total_seats ≤ (countBooked s.bookings sid : Int)) :
    book s sid uid seat = (BookResult.showFull, s) := by
  unfold book
  rw [hf]
  simp [hv, ht, hfull]

theorem book_success {s : State} {sid uid : Nat} {seat : Int} {sh : MShow}
    (hf : findShow s sid = some sh) (hv : serializerValid seat sh = true)
    (ht : seatTaken s.bookings sid seat = false)
    (hfull : ¬ sh.total_seats ≤ (countBooked s.bookings sid : Int)) :
    book s sid uid seat =
      (BookResult.ok
        { id := s.nextId, user_id := uid, show_id := sid, seat_number := seat,
          status := BStatus.booked, created_at := s.clock, updated_at := s.clock },
       { s with
          bookings :=
            { id := s.nextId, user_id := uid, show_id := sid, seat_number := seat,
              status := BStatus.booked, created_at := s.clock,
              updated_at := s.clock } :: s.bookings,
          nextId := s.nextId + 1, clock := s.clock + 1 }) := by
  unfold book
  rw [hf]
  simp [hv, ht, hfull]

/-- C5: for every existing show, booking a `seat_number` outside
`[1, total_seats]` fails with a `ValidationError` and inserts no row, and
the seat-number validation accepts `n` exactly when
`1 ≤ n ≤ show.total_seats` (the serializer realises the spec's
`validate_seat_number`). -/
theorem c5_seat_validation (s : State) (sid uid : Nat) (seat n : Int) (sh : MShow)
    (hf : findShow s sid = some sh) (hbad : seat < 1 ∨ sh.total_seats < seat) :
    book s sid uid seat = (BookResult.validationError, s) ∧
    (validate_seat_number n sh = true ↔ 1 ≤ n ∧ n ≤ sh.total_seats) ∧
    serializerValid n sh = validate_seat_number n sh := by
  have hv : serializerValid seat sh = false := by
    simp only [serializerValid, Bool.and_eq_false_iff, decide_eq_false_iff_not]
    omega
  refine ⟨book_validation_fails hf hv, ?_, rfl⟩
  simp [validate_seat_number]

/-- Witness for C5: on the capacity-1 show, seat 999 is rejected without
touching the store, and the validator accepts seat 1. -/
theorem c5_seat_validation_witness :
    book demo0 1 10 999 = (BookResult.validationError, demo0) ∧
    (validate_seat_number 1 sh1 = true ↔ 1 ≤ (1 : Int) ∧ (1 : Int) ≤ sh1.total_seats) ∧
    serializerValid 1 sh1 = validate_seat_number 1 sh1 :=
  c5_seat_validation demo0 1 10 999 1 sh1 rfl (by right; decide)

/-- C6: when the requested seat of an existing show is valid but already
actively booked, `book` fails with `SeatAlreadyBooked` and changes no
state; the seat-taken check precedes the capacity check, so a taken seat
on a full show yields `SeatAlreadyBooked`, never `ShowFull`. -/
theorem c6_seat_taken_wins (s : State) (sid uid : Nat) (seat : Int) (sh : MShow)
    (hf : findShow s sid = some sh) (hv : serializerValid seat sh = true)
    (ht : seatTaken s.bookings sid seat = true) :
    book s sid uid seat = (BookResult.seatAlreadyBooked, s) ∧
    (book s sid uid seat).1 ≠ BookResult.showFull := by
  refine ⟨book_seat_taken hf hv ht, ?_⟩
  rw [book_seat_taken hf hv ht]
  simp

/-- Witness for C6: after user 10 books the only seat of the capacity-1
show, the show is also full, yet user 20's attempt at the same seat
reports `SeatAlreadyBooked` and not `ShowFull`. -/
theorem c6_seat_taken_wins_witness :
    sh1.total_seats ≤ (countBooked demo1.bookings 1 : Int) ∧
    (book demo1 1 20 1 = (BookResult.seatAlreadyBooked, demo1) ∧
      (book demo1 1 20 1).1 ≠ BookResult.showFull) :=
  ⟨by decide, c6_seat_taken_wins demo1 1 20 1 sh1 rfl (by decide) (by decide)⟩

/-- C2 as stated is false on the code: in the reachable store where user
10 holds the only seat of the capacity-1 show, the active count has
reached `total_seats`, yet booking the (taken) seat 1 reports
`SeatAlreadyBooked`, not `ShowFull` — the seat-taken check runs first. -/
theorem c2_counterexample :
    Reachable demo1 ∧
    sh1 ∈ demo1.shows ∧
    sh1.total_seats ≤ (countBooked demo1.bookings sh1.id : Int) ∧
    (book demo1 1 20 1).1 = BookResult.seatAlreadyBooked ∧
    (book demo1 1 20 1).1 ≠ BookResult.showFull :=
  ⟨demo1_reachable, by decide, by decide, by decide, by decide⟩

/-- C2 (amended): in every reachable store the count of active bookings
of a show never exceeds its `total_seats`; and `book` fails with
`ShowFull` whenever that count is already at least `total_seats`,
provided the requested seat is valid and not itself already booked. -/
theorem c2_capacity_bound (s : State) (hs : Reachable s) (sh : MShow)
    (hsh : sh ∈ s.shows) (t : State) (sid uid : Nat) (seat : Int) (sh' : MShow)
    (hf : findShow t sid = some sh') (hv : serializerValid seat sh' = true)
    (ht : seatTaken t.bookings sid seat = false)
    (hfull : sh'.total_seats ≤ (countBooked t.bookings sid : Int)) :
    (countBooked s.bookings sh.id : Int) ≤ sh.total_seats ∧
    (book t sid uid seat).1 = BookResult.showFull := by
  refine ⟨(inv_reachable hs).2.2.2.2.2.2 sh hsh, ?_⟩
  rw [book_show_full hf hv ht hfull]

/-- A store outside the reachable set (a booked row with an out-of-range
seat), exercising the `ShowFull` branch of `book` directly. -/
def artFull : State :=
  { shows := [sh1],
    bookings := [{ id := 1, user_id := 10, show_id := 1, seat_number := 5,
                   status := BStatus.booked, created_at := 0, updated_at := 0 }],
    nextId := 2, clock := 1 }

/-- Witness for the amended C2: the capacity bound at the reachable store
`demo1`, and the `ShowFull` outcome on a full show with a free seat. -/
theorem c2_capacity_bound_witness :
    (countBooked demo1.bookings sh1.id : Int) ≤ sh1.total_seats ∧
    (book artFull 1 20 1).1 = BookResult.showFull :=
  c2_capacity_bound demo1 demo1_reachable sh1 (by decide) artFull 1 20 1 sh1
    rfl (by decide) (by decide) (by decide)

/-! ### Serialized contention: many `book` calls for one seat

The spec requires the store to serialize concurrent `book` transactions
for the same seat (`transaction.atomic()` with row locking); a race of N
callers therefore settles as some serial order of the N calls, which is
what `bookMany` executes. -/

/-- Did the call commit a booking (the 201 outcome)? -/
def isOk : BookResult → Bool
  | BookResult.ok _ => true
  | _ => false

/-- N serialized `book` calls for the same `(show, seat_number)`, one per
user in the list, each seeing the state the previous one committed. -/
def bookMany (s : State) (sid : Nat) (seat : Int) : List Nat → List BookResult × State
  | [] => ([], s)
  | u :: us =>
    let r := book s sid u seat
    let rest := bookMany r.2 sid seat us
    (r.1 :: rest.1, rest.2)

theorem bookMany_all_taken {s : State} {sid : Nat} {seat : Int} {sh : MShow}
    (hf : findShow s sid = some sh) (hv : serializerValid seat sh = true)
    (ht : seatTaken s.bookings sid seat = true) (us : List Nat) :
    bookMany s sid seat us =
      (List.replicate us.length BookResult.seatAlreadyBooked, s) := by
  induction us with
  | nil => simp [bookMany]
  | cons u us ih =>
    have hb := @book_seat_taken s sid u seat sh hf hv ht
    simp only [bookMany, hb, ih, List.length_cons, List.replicate_succ]

/-- C3: N serialized `book` calls for the same seat of an existing show
(valid, currently free, capacity not yet reached) from distinct users:
exactly one call succeeds, every call's outcome is a success,
`SeatAlreadyBooked` or `ShowFull`, and afterwards at most one active
booking for that seat exists. -/
theorem c3_exactly_one_success (s : State) (sid : Nat) (seat : Int) (sh : MShow)
    (users : List Nat) (hne : users ≠ []) (hnd : users.Nodup)
    (hf : findShow s sid = some sh) (hv : serializerValid seat sh = true)
    (ht : seatTaken s.bookings sid seat = false)
    (hcap : (countBooked s.bookings sid : Int) < sh.total_seats) :
    (bookMany s sid seat users).1.countP isOk = 1 ∧
    (bookMany s sid seat users).1.all
      (fun r => isOk r || r == BookResult.seatAlreadyBooked
        || r == BookResult.showFull) = true ∧
    (activeForSeat (bookMany s sid seat users).2 sid seat).length ≤ 1 := by
  cases users with
  | nil => exact absurd rfl hne
  | cons u us =>
    have hfull : ¬ sh.total_seats ≤ (countBooked s.bookings sid : Int) :=
      not_le.mpr hcap
    have hsucc := @book_success s sid u seat sh hf hv ht hfull
    set b : Booking :=
      { id := s.nextId, user_id := u, show_id := sid, seat_number := seat,
        status := BStatus.booked, created_at := s.clock,
        updated_at := s.clock } with hbdef
    set s1 : State :=
      { s with bookings := b :: s.bookings, nextId := s.nextId + 1,
               clock := s.clock + 1 } with hs1def
    have hf1 : findShow s1 sid = some sh := hf
    have hbact : isActiveFor sid seat b = true := by
      rw [isActiveFor_iff, hbdef]
      exact ⟨rfl, rfl, rfl⟩
    have ht1 : seatTaken s1.bookings sid seat = true := by
      rw [hs1def]
      simp [seatTaken, hbact]
    have hrest := bookMany_all_taken hf1 hv ht1 us
    have hbm : bookMany s sid seat (u :: us)
        = (BookResult.ok b :: List.replicate us.length BookResult.seatAlreadyBooked,
           s1) := by
      simp only [bookMany, hsucc, hrest]
    rw [hbm]
    have hnil : s.bookings.filter (isActiveFor sid seat) = [] := by
      rw [List.filter_eq_nil_iff]
      intro a ha
      have hna := seatTaken_false ht a ha
      simp only [isActiveFor_iff]
      exact fun hc => hna hc
    refine ⟨?_, ?_, ?_⟩
    · simp only [List.countP_cons]
      have hz : (List.replicate us.length BookResult.seatAlreadyBooked).countP isOk
          = 0 := by
        rw [List.countP_eq_zero]
        intro a ha
        rw [List.eq_of_mem_replicate ha]
        simp [isOk]
      simp [hz, isOk]
    · rw [List.all_eq_true]
      intro r hr
      rcases List.mem_cons.mp hr with rfl | hr
      · simp [isOk]
      · rw [List.eq_of_mem_replicate hr]
        simp
    · have : activeForSeat s1 sid seat = [b] := by
        rw [hs1def]
        simp only [activeForSeat, List.filter_cons, hbact, if_true]
        rw [hnil]
      rw [this]
      exact Nat.le_refl 1

/-- Witness for C3: three users race (in serial order) for seat 1 of the
empty capacity-1 show. -/
theorem c3_exactly_one_success_witness :
    (bookMany demo0 1 1 [10, 20, 30]).1.countP isOk = 1 ∧
    (bookMany demo0 1 1 [10, 20, 30]).1.all
      (fun r => isOk r || r == BookResult.seatAlreadyBooked
        || r == BookResult.showFull) = true ∧
    (activeForSeat (bookMany demo0 1 1 [10, 20, 30]).2 1 1).length ≤ 1 :=
  c3_exactly_one_success demo0 1 1 sh1 [10, 20, 30] (by decide) (by decide)
    rfl (by decide) (by decide) (by decide)

/-! ### Branch behaviour of `cancel` -/

theorem cancel_not_owner {s : State} {bid uid : Nat} {b : Booking}
    (hf : findBooking s bid = some b) (hne : b.user_id ≠ uid) :
    cancel s bid uid = (CancelResult.forbidden, s) := by
  unfold cancel
  rw [hf]
  simp [hne]

theorem cancel_already_cancelled {s : State} {bid uid : Nat} {b : Booking}
    (hf : findBooking s bid = some b) (huid : b.user_id = uid)
    (hst : b.status = BStatus.cancelled) :
    cancel s bid uid = (CancelResult.alreadyCancelled, s) := by
  unfold cancel
  rw [hf]
  simp [huid, hst]

theorem cancel_conflict_500 {s : State} {bid uid : Nat} {b : Booking}
    (hf : findBooking s bid = some b) (huid : b.user_id = uid)
    (hst : b.status = BStatus.booked) (hc : cancelConflict s.bookings b = true) :
    cancel s bid uid = (CancelResult.dbError, s) := by
  unfold cancel
  rw [hf]
  simp [huid, hst, hc]

theorem cancel_success {s : State} {bid uid : Nat} {b : Booking}
    (hf : findBooking s bid = some b) (huid : b.user_id = uid)
    (hst : b.status = BStatus.booked) (hc : cancelConflict s.bookings b = false) :
    cancel s bid uid =
      (CancelResult.ok { b with status := BStatus.cancelled, updated_at := s.clock },
       { s with
          bookings := s.bookings.map fun x =>
            if x.id == bid then
              { b with status := BStatus.cancelled, updated_at := s.clock }
            else x,
          clock := s.clock + 1 }) := by
  unfold cancel
  rw [hf]
  simp [huid, hst, hc]

/-- C7: a cancellation request by anyone other than the booking's owner
is answered with the constant `Forbidden` outcome — independent of the
booking's contents, so nothing beyond the booking's existence is
revealed — the store is unchanged, and the ownership check precedes the
already-cancelled check, so a non-owner is never told `AlreadyCancelled`. -/
theorem c7_cancel_forbidden (s : State) (bid uid : Nat) (b : Booking)
    (hf : findBooking s bid = some b) (hne : b.user_id ≠ uid) :
    cancel s bid uid = (CancelResult.forbidden, s) ∧
    (cancel s bid uid).1 ≠ CancelResult.alreadyCancelled := by
  refine ⟨cancel_not_owner hf hne, ?_⟩
  rw [cancel_not_owner hf hne]
  simp

/-- Witness for C7: user 99 tries to cancel user 10's booking — which is
even already cancelled — and still receives `Forbidden`, not
`AlreadyCancelled`. -/
theorem c7_cancel_forbidden_witness :
    cancel demo2 1 99 = (CancelResult.forbidden, demo2) ∧
    (cancel demo2 1 99).1 ≠ CancelResult.alreadyCancelled :=
  c7_cancel_forbidden demo2 1 99
    { id := 1, user_id := 10, show_id := 1, seat_number := 1,
      status := BStatus.cancelled, created_at := 0, updated_at := 1 }
    (by decide) (by decide)

/-- Did the cancellation succeed (the 200 outcome)? -/
def isOkCancel : CancelResult → Bool
  | CancelResult.ok _ => true
  | _ => false

/-- After a successful cancellation the updated row is found again under
the same primary key. -/
theorem findBooking_after_cancel {s : State} {bid uid : Nat} {b : Booking}
    (hf : findBooking s bid = some b) (huid : b.user_id = uid)
    (hst : b.status = BStatus.booked) (hc : cancelConflict s.bookings b = false) :
    findBooking (cancel s bid uid).2 bid =
      some { b with status := BStatus.cancelled, updated_at := s.clock } := by
  obtain ⟨hbmem, hbid⟩ := findBooking_mem hf
  rw [cancel_success hf huid hst hc]
  unfold findBooking
  dsimp only
  rw [List.find?_map]
  have hcomp : ((fun x : Booking => x.id == bid) ∘ fun x : Booking =>
      if x.id == bid then
        { b with status := BStatus.cancelled, updated_at := s.clock }
      else x) = fun x : Booking => x.id == bid := by
    funext x
    by_cases hx : x.id = bid
    · simp [hx, hbid]
    · simp [hx]
  rw [hcomp]
  have : List.find? (fun x : Booking => x.id == bid) s.bookings = some b := hf
  rw [this]
  simp [hbid]

/-- C8 as stated is false on the code: its two-cancel consequence claims
the owner's first cancellation of an active booking succeeds, but in the
reachable store `demo3` the owner's (user 20's) first cancel of their
active booking 2 returns the 500 outcome — the status update would
duplicate the `(show 1, seat 1, cancelled)` row of the earlier cycle and
trips the `unique_together` constraint — and the repeated call never
reaches `AlreadyCancelled` either. -/
theorem c8_counterexample :
    Reachable demo3 ∧
    findBooking demo3 2 =
      some { id := 2, user_id := 20, show_id := 1, seat_number := 1,
             status := BStatus.booked, created_at := 2, updated_at := 2 } ∧
    isOkCancel (cancel demo3 2 20).1 = false ∧
    (cancel demo3 2 20).1 = CancelResult.dbError ∧
    (cancel (cancel demo3 2 20).2 2 20).1 ≠ CancelResult.alreadyCancelled :=
  ⟨demo3_reachable, by decide, by decide, by decide, by decide⟩

/-- C8 (amended): cancelling an already-cancelled booking as its owner
reports `AlreadyCancelled` and changes no state; and for an active
booking whose status update does not violate the store's unique
`(show, seat_number, status)` constraint — the condition under which the
first owner cancellation can succeed at all — two successive owner
cancellations yield a success and then `AlreadyCancelled`. -/
theorem c8_already_cancelled (s : State) (bid : Nat) (b : Booking)
    (hf : findBooking s bid = some b) (hst : b.status = BStatus.cancelled)
    (t : State) (cid : Nat) (c : Booking)
    (gf : findBooking t cid = some c) (gst : c.status = BStatus.booked)
    (gc : cancelConflict t.bookings c = false) :
    cancel s bid b.user_id = (CancelResult.alreadyCancelled, s) ∧
    isOkCancel (cancel t cid c.user_id).1 = true ∧
    (cancel (cancel t cid c.user_id).2 cid c.user_id).1 =
      CancelResult.alreadyCancelled := by
  refine ⟨cancel_already_cancelled hf rfl hst, ?_, ?_⟩
  · rw [cancel_success gf rfl gst gc]
    rfl
  · have hfind := findBooking_after_cancel gf rfl gst gc
    rw [cancel_already_cancelled hfind rfl rfl]

/-- Witness for C8: re-cancelling the cancelled booking in `demo2`
reports `AlreadyCancelled`; cancelling the fresh booking in `demo1`
succeeds once and reports `AlreadyCancelled` the second time. -/
theorem c8_already_cancelled_witness :
    cancel demo2 1 10 = (CancelResult.alreadyCancelled, demo2) ∧
    isOkCancel (cancel demo1 1 10).1 = true ∧
    (cancel (cancel demo1 1 10).2 1 10).1 = CancelResult.alreadyCancelled :=
  c8_already_cancelled demo2 1
    { id := 1, user_id := 10, show_id := 1, seat_number := 1,
      status := BStatus.cancelled, created_at := 0, updated_at := 1 }
    (by decide) (by decide) demo1 1
    { id := 1, user_id := 10, show_id := 1, seat_number := 1,
      status := BStatus.booked, created_at := 0, updated_at := 0 }
    (by decide) (by decide) (by decide)

/-- C9: a successful cancellation flips the booking's status to
`cancelled`, refreshes its `updated_at` (strictly later than any
timestamp the row had), and returns the updated booking, while the
booking's user, show, seat number, `created_at` and primary key are
unchanged; the row is updated in place, not deleted, and the shows are
untouched. -/
theorem c9_cancel_frame (s : State) (hs : Reachable s) (bid uid : Nat)
    (b b' : Booking) (t : State)
    (hf : findBooking s bid = some b)
    (hres : cancel s bid uid = (CancelResult.ok b', t)) :
    b'.status = BStatus.cancelled ∧ b'.user_id = b.user_id ∧
    b'.show_id = b.show_id ∧ b'.seat_number = b.seat_number ∧
    b'.created_at = b.created_at ∧ b'.id = b.id ∧
    b.updated_at < b'.updated_at ∧ b' ∈ t.bookings ∧
    t.bookings.length = s.bookings.length ∧ t.shows = s.shows := by
  obtain ⟨hbmem, hbid⟩ := findBooking_mem hf
  have hclk := (inv_reachable hs).2.2.2.2.1 b hbmem
  unfold cancel at hres
  rw [hf] at hres
  dsimp only at hres
  by_cases h1 : b.user_id ≠ uid
  · rw [if_pos h1] at hres
    exact absurd hres (by simp)
  rw [if_neg h1] at hres
  by_cases h2 : b.status = BStatus.cancelled
  · rw [if_pos h2] at hres
    exact absurd hres (by simp)
  rw [if_neg h2] at hres
  by_cases h3 : cancelConflict s.bookings b = true
  · rw [if_pos h3] at hres
    exact absurd hres (by simp)
  rw [if_neg h3] at hres
  rw [Prod.mk.injEq] at hres
  obtain ⟨hb', ht⟩ := hres
  injection hb' with hbeq
  subst hbeq
  subst ht
  refine ⟨rfl, rfl, rfl, rfl, rfl, rfl, ?_, ?_, ?_, rfl⟩
  · exact hclk.2
  · refine List.mem_map.mpr ⟨b, hbmem, ?_⟩
    simp [hbid]
  · exact (List.length_map _ _)

/-- Witness for C9: cancelling user 10's booking in the reachable store
`demo1`. -/
theorem c9_cancel_frame_witness :
    ({ id := 1, user_id := 10, show_id := 1, seat_number := 1,
       status := BStatus.cancelled, created_at := 0,
       updated_at := 1 } : Booking).status = BStatus.cancelled ∧
    ({ id := 1, user_id := 10, show_id := 1, seat_number := 1,
       status := BStatus.cancelled, created_at := 0,
       updated_at := 1 } : Booking).user_id =
      ({ id := 1, user_id := 10, show_id := 1, seat_number := 1,
         status := BStatus.booked, created_at := 0,
         updated_at := 0 } : Booking).user_id ∧
    ({ id := 1, user_id := 10, show_id := 1, seat_number := 1,
       status := BStatus.cancelled, created_at := 0,
       updated_at := 1 } : Booking).show_id =
      ({ id := 1, user_id := 10, show_id := 1, seat_number := 1,
         status := BStatus.booked, created_at := 0,
         updated_at := 0 } : Booking).show_id ∧
    ({ id := 1, user_id := 10, show_id := 1, seat_number := 1,
       status := BStatus.cancelled, created_at := 0,
       updated_at := 1 } : Booking).seat_number =
      ({ id := 1, user_id := 10, show_id := 1, seat_number := 1,
         status := BStatus.booked, created_at := 0,
         updated_at := 0 } : Booking).seat_number ∧
    ({ id := 1, user_id := 10, show_id := 1, seat_number := 1,
       status := BStatus.cancelled, created_at := 0,
       updated_at := 1 } : Booking).created_at =
      ({ id := 1, user_id := 10, show_id := 1, seat_number := 1,
         status := BStatus.booked, created_at := 0,
         updated_at := 0 } : Booking).created_at ∧
    ({ id := 1, user_id := 10, show_id := 1, seat_number := 1,
       status := BStatus.cancelled, created_at := 0,
       updated_at := 1 } : Booking).id =
      ({ id := 1, user_id := 10, show_id := 1, seat_number := 1,
         status := BStatus.booked, created_at := 0,
         updated_at := 0 } : Booking).id ∧
    ({ id := 1, user_id := 10, show_id := 1, seat_number := 1,
       status := BStatus.booked, created_at := 0,
       updated_at := 0 } : Booking).updated_at <
      ({ id := 1, user_id := 10, show_id := 1, seat_number := 1,
         status := BStatus.cancelled, created_at := 0,
         updated_at := 1 } : Booking).updated_at ∧
    ({ id := 1, user_id := 10, show_id := 1, seat_number := 1,
       status := BStatus.cancelled, created_at := 0,
       updated_at := 1 } : Booking) ∈ demo2.bookings ∧
    demo2.bookings.length = demo1.bookings.length ∧
    demo2.shows = demo1.shows :=
  c9_cancel_frame demo1 demo1_reachable 1 10
    { id := 1, user_id := 10, show_id := 1, seat_number := 1,
      status := BStatus.booked, created_at := 0, updated_at := 0 }
    { id := 1, user_id := 10, show_id := 1, seat_number := 1,
      status := BStatus.cancelled, created_at := 0, updated_at := 1 }
    demo2 (by decide) (by decide)

/-- C4: the book–cancel cycle does NOT repeat on this code.  In the
reachable store `demo3` (user 10 booked seat 1 and cancelled; user 20
then rebooked seat 1), user 20's cancellation of their own active
booking is rejected with the 500 outcome and the store is unchanged: the
status update would create a second `(show 1, seat 1, cancelled)` row,
which the model's `unique_together = ["show", "seat_number", "status"]`
constraint forbids, so `booking.save()` raises `IntegrityError`.  The
spec instead promises arbitrarily repeatable cycles with multiple
historical rows per seat. -/
theorem c4_second_cycle_cancel_rejected :
    Reachable demo3 ∧
    findBooking demo3 2 =
      some { id := 2, user_id := 20, show_id := 1, seat_number := 1,
             status := BStatus.booked, created_at := 2, updated_at := 2 } ∧
    cancelConflict demo3.bookings
      { id := 2, user_id := 20, show_id := 1, seat_number := 1,
        status := BStatus.booked, created_at := 2, updated_at := 2 } = true ∧
    (cancel demo3 2 20).1 = CancelResult.dbError ∧
    (cancel demo3 2 20).2 = demo3 :=
  ⟨demo3_reachable, by decide, by decide, by decide, by decide⟩

/-- The first booking committed in the C10 scenario: user 10 (user A)
holds seat 1. -/
def bookingA : Booking :=
  { id := 1, user_id := 10, show_id := 1, seat_number := 1,
    status := BStatus.booked, created_at := 0, updated_at := 0 }

/-- The rebooking committed in the C10 scenario: user 20 (user B) holds
seat 1 after A's cancellation. -/
def bookingB : Booking :=
  { id := 2, user_id := 20, show_id := 1, seat_number := 1,
    status := BStatus.booked, created_at := 2, updated_at := 2 }

/-- C10: on the capacity-1 show, user A (10) books seat 1 successfully;
user B (20) then fails with `SeatAlreadyBooked` and the store is
untouched; A cancels successfully; B's retry succeeds, and the new
active booking belongs to B, not A. -/
theorem c10_rebooking_scenario :
    (book demo0 1 10 1).1 = BookResult.ok bookingA ∧
    book demo1 1 20 1 = (BookResult.seatAlreadyBooked, demo1) ∧
    isOkCancel (cancel demo1 1 10).1 = true ∧
    (book demo2 1 20 1).1 = BookResult.ok bookingB ∧
    activeForSeat demo3 1 1 = [bookingB] ∧
    bookingB.user_id = 20 ∧ bookingA.user_id = 10 ∧
    bookingB.user_id ≠ bookingA.user_id := by
  refine ⟨?_, ?_, ?_, ?_, ?_, ?_, ?_, ?_⟩ <;> decide

end Movies
